import Mathlib

/-!
# LightBnB data-access layer (`db/database.js`)

A shallow embedding of the six exported operations of `db/database.js` and of
the SQL statements they assemble.

Modelling conventions

* A JavaScript value is a `JSVal`.  Numbers are the doubles with an integer
  value, `NaN` and the two infinities; arithmetic rounds to a double and
  numbers print as `Number::toString` prints them.  Numbers with a fractional
  part and objects are outside the model.
* A promise is represented by the way it settles (`Promise.resolved` or
  `Promise.rejected`); `then` and `catch` are the usual combinators on that.
* The connection pool is an external collaborator: a function from the query
  it receives to the way its promise settles.
* `console.log` has no effect on the value a promise settles to and is left
  out.
* The conversion of a string to a number (`ToNumber` on strings) belongs to
  the JavaScript runtime and is taken as a parameter `strNum`.
-/

namespace LightBnB

set_option maxRecDepth 1000000

/-! ## JavaScript values -/

/-- A JavaScript value as it reaches this module.  `num n` is the number with
the integer value `n`, which is a value of JavaScript when `n` is a double. -/
inductive JSVal where
  | undefined
  | null
  | bool (b : Bool)
  | num (n : Int)
  | nan
  | inf (negative : Bool)
  | str (s : String)
deriving DecidableEq

/-- The truthiness test of an `if (v)` statement. -/
def truthy : JSVal → Bool
  | .undefined => false
  | .null => false
  | .bool b => b
  | .num n => n != 0
  | .nan => false
  | .inf _ => true
  | .str s => s != ""

/-- A number of JavaScript within the model: an integer, `NaN` or an
infinity. -/
inductive Num where
  | int (n : Int)
  | nan
  | inf (negative : Bool)
deriving DecidableEq

/-- A number as a value. -/
def Num.toVal : Num → JSVal
  | .int n => .num n
  | .nan => .nan
  | .inf negative => .inf negative

/-! ### Double precision -/

/-- The number of binary digits `n` has beyond 53, the width of the
significand of a double; `fuel` bounds the halvings. -/
def excessBits : Nat → Nat → Nat
  | 0, _ => 0
  | fuel + 1, n => if n < 2 ^ 53 then 0 else excessBits fuel (n / 2) + 1

/-- The magnitude `n` rounded to a significand of 53 binary digits, to the
nearest such magnitude and to the even significand on a tie. -/
def roundMagnitude (n : Nat) : Nat :=
  let shift := excessBits n n
  let q := n / 2 ^ shift
  let r := n % 2 ^ shift
  let q := if 2 ^ shift < 2 * r ∨ (2 * r = 2 ^ shift ∧ q % 2 = 1) then q + 1 else q
  q * 2 ^ shift

/-- The power `2 ^ 1024`, the least magnitude that is beyond the doubles. -/
def doubleLimit : Nat :=
  (2 ^ 256) ^ 4

/-- The double an exact integer result is rounded to; a magnitude that rounds
to `2 ^ 1024` or more overflows to an infinity. -/
def roundDouble (n : Int) : Num :=
  let m := roundMagnitude n.natAbs
  if doubleLimit ≤ m then .inf (decide (n < 0))
  else .int (if n < 0 then -(m : Int) else (m : Int))

/-- The integer `n` is a double: its magnitude is a significand below
`2 ^ 53` times a power of two, and is below `2 ^ 1024`. -/
def ExactDouble (n : Int) : Prop :=
  ∃ m e : Nat, m < 2 ^ 53 ∧ n.natAbs = m * 2 ^ e ∧ n.natAbs < doubleLimit

/-! ### Numbers as text -/

/-- The multiple `s * 10 ^ e` of `10 ^ e` that rounds to the double `x` and is
nearest to it (the even `s` on a tie), if one rounds to `x`. -/
def digitsAt (x e : Nat) : Option Nat :=
  let lo := x / 10 ^ e
  let hi := lo + 1
  let okLo := decide (roundMagnitude (lo * 10 ^ e) = x)
  let okHi := decide (roundMagnitude (hi * 10 ^ e) = x)
  if okLo && okHi then
    if x - lo * 10 ^ e < hi * 10 ^ e - x then some lo
    else if hi * 10 ^ e - x < x - lo * 10 ^ e then some hi
    else if lo % 2 = 0 then some lo else some hi
  else if okLo then some lo
  else if okHi then some hi
  else none

/-- The search for the fewest decimal digits that identify the double `x`:
the exponents from `e` downwards are tried, the largest first. -/
def shortestFrom (x : Nat) : Nat → Option (Nat × Nat)
  | 0 => (digitsAt x 0).map fun s => (s, 0)
  | e + 1 =>
    match digitsAt x (e + 1) with
    | some s => some (s, e + 1)
    | none => shortestFrom x e

/-- The digits `s` and the exponent `e` with the fewest digits such that
`s * 10 ^ e` rounds to the double `x`. -/
def shortest (x : Nat) : Option (Nat × Nat) :=
  shortestFrom x ((toString x).length - 1)

/-- The text of the magnitude `x` of a number (`Number::toString`): the
shortest digits that identify `x`, written out with zeros after them when
the number has at most 21 digits and in exponent form otherwise. -/
def magnitudeText (x : Nat) : String :=
  match shortest x with
  | none => toString x
  | some (s, e) =>
    let digits := toString s
    let n := digits.length + e
    if n ≤ 21 then digits ++ String.mk (List.replicate e '0')
    else
      match (digits.data.reverse.dropWhile fun c => c = '0').reverse with
      | [] => digits
      | d :: rest =>
        String.mk (d :: (if rest = [] then [] else '.' :: rest)) ++ "e+" ++ toString (n - 1)

/-- The string a template literal substitutes for `${v}`. -/
def toStr : JSVal → String
  | .undefined => "undefined"
  | .null => "null"
  | .bool b => if b then "true" else "false"
  | .num n => (if n < 0 then "-" else "") ++ magnitudeText n.natAbs
  | .nan => "NaN"
  | .inf negative => if negative then "-Infinity" else "Infinity"
  | .str s => s

/-- The number a value is converted to by an arithmetic operator; `strNum` is
the conversion of strings by the runtime. -/
def toNumber (strNum : String → Num) : JSVal → Num
  | .undefined => .nan
  | .null => .int 0
  | .bool b => .int (if b then 1 else 0)
  | .num n => .int n
  | .nan => .nan
  | .inf negative => .inf negative
  | .str s => strNum s

/-- The JavaScript product `v * k` for an integer literal `k`: the exact
product rounded to a double. -/
def times (strNum : String → Num) (v : JSVal) (k : Int) : JSVal :=
  match toNumber strNum v with
  | .int n => (roundDouble (n * k)).toVal
  | .nan => .nan
  | .inf negative => if k = 0 then .nan else .inf (negative != decide (k < 0))

/-! ## Promises and the pool -/

/-- A row of a result set: column names with their values. -/
abbrev Row := List (String × JSVal)

/-- What a successful `pool.query` yields: an object with a `rows` array. -/
structure QueryResult where
  rows : List Row

/-- The text and the bound parameters handed to `pool.query`. -/
structure Query where
  text : String
  params : List JSVal
deriving DecidableEq

/-- A settled promise. -/
inductive Promise (α : Type) where
  | resolved (value : α)
  | rejected (message : String)
deriving DecidableEq

/-- The `.then(f)` combinator with a callback that does not throw. -/
def Promise.andThen {α β : Type} (p : Promise α) (f : α → β) : Promise β :=
  match p with
  | .resolved v => .resolved (f v)
  | .rejected m => .rejected m

/-- The `.catch(h)` combinator with a handler that does not throw. -/
def Promise.orCatch {α : Type} (p : Promise α) (h : String → α) : Promise α :=
  match p with
  | .resolved v => .resolved v
  | .rejected m => .resolved (h m)

/-- The connection pool of `db/index`: its `query` method. -/
abbrev Pool := Query → Promise QueryResult

/-- A value an operation resolves to: `undefined`, one row, or an array of
rows. -/
inductive Answer where
  | undefined
  | row (r : Row)
  | rows (rs : List Row)
deriving DecidableEq

/-- The expression `result.rows[0]`. -/
def firstRow (result : QueryResult) : Answer :=
  match result.rows with
  | [] => .undefined
  | r :: _ => .row r

/-! ## Users -/

/-- The query issued by `getUserWithEmail`. -/
def getUserWithEmailQuery (email : JSVal) : Query :=
  ⟨"SELECT * FROM users WHERE email = $1", [email]⟩

/-- Operation `getUserWithEmail`. -/
def getUserWithEmail (pool : Pool) (email : JSVal) : Promise Answer :=
  ((pool (getUserWithEmailQuery email)).andThen fun result => firstRow result).orCatch
    fun _ => .undefined

/-- The query issued by `getUserWithId`. -/
def getUserWithIdQuery (id : JSVal) : Query :=
  ⟨"SELECT * FROM users WHERE id = $1", [id]⟩

/-- Operation `getUserWithId`. -/
def getUserWithId (pool : Pool) (id : JSVal) : Promise Answer :=
  ((pool (getUserWithIdQuery id)).andThen fun result => firstRow result).orCatch
    fun _ => .undefined

/-- The argument of `addUser`. -/
structure User where
  name : JSVal
  email : JSVal
  password : JSVal

/-- The query issued by `addUser`. -/
def addUserQuery (user : User) : Query :=
  ⟨"INSERT INTO users (name, email, password) VALUES ($1, $2, $3) RETURNING *;",
    [user.name, user.email, user.password]⟩

/-- Operation `addUser`. -/
def addUser (pool : Pool) (user : User) : Promise Answer :=
  ((pool (addUserQuery user)).andThen fun result => firstRow result).orCatch
    fun _ => .undefined

/-! ## Reservations -/

/-- A parameter declared as `limit = 10`: the default replaces `undefined`. -/
def limitOrDefault (limit : JSVal) : JSVal :=
  if limit = .undefined then .num 10 else limit

/-- The query issued by `getAllReservations`. -/
def getAllReservationsQuery (guest_id limit : JSVal) : Query :=
  ⟨"SELECT * FROM reservations JOIN properties ON reservations.property_id = properties.id WHERE guest_id = $1 LIMIT $2;",
    [guest_id, limitOrDefault limit]⟩

/-- Operation `getAllReservations`. -/
def getAllReservations (pool : Pool) (guest_id limit : JSVal) : Promise Answer :=
  ((pool (getAllReservationsQuery guest_id limit)).andThen fun result =>
      Answer.rows result.rows).orCatch
    fun _ => .undefined

/-! ## Statement assembly -/

/-- The two variables `queryParams` and `queryString` of a statement under
construction. -/
structure Builder where
  queryParams : List JSVal
  queryString : String

/-- The statement `queryParams.push(v)`. -/
def Builder.push (b : Builder) (v : JSVal) : Builder :=
  ⟨b.queryParams ++ [v], b.queryString⟩

/-- The template fragment `$${queryParams.length}`. -/
def Builder.slot (b : Builder) : String :=
  "$" ++ toString b.queryParams.length

/-- The statement `queryString += s`. -/
def Builder.add (b : Builder) (s : String) : Builder :=
  ⟨b.queryParams, b.queryString ++ s⟩

/-- The query a finished builder hands to the pool. -/
def Builder.toQuery (b : Builder) : Query :=
  ⟨b.queryString, b.queryParams⟩

/-! ## Properties: search -/

/-- The `options` argument of `getAllProperties`; a missing key reads as
`undefined`. -/
structure Options where
  city : JSVal
  owner_id : JSVal
  minimum_price_per_night : JSVal
  maximum_price_per_night : JSVal
  minimum_rating : JSVal

/-- The opening text of the search statement. -/
def searchHead : String :=
  "\n  SELECT properties.*, avg(property_reviews.rating) as average_rating\n  FROM properties\n  JOIN property_reviews ON properties.id = property_id\n  "

/-- The assembly part of `getAllProperties`, statement by statement. -/
def getAllPropertiesBuild (strNum : String → Num) (options : Options)
    (limit : JSVal) : Builder :=
  let limit := limitOrDefault limit
  let b : Builder := ⟨[], searchHead⟩
  let b :=
    if truthy options.city then
      let b := b.push (.str ("%" ++ toStr options.city ++ "%"))
      b.add ("WHERE city LIKE " ++ b.slot)
    else b
  let b :=
    if truthy options.owner_id then
      let b := b.push options.owner_id
      b.add (" AND owner_id = " ++ b.slot)
    else b
  let b :=
    if truthy options.minimum_price_per_night then
      let b := b.push (times strNum options.minimum_price_per_night 100)
      b.add (" AND cost_per_night >= " ++ b.slot)
    else b
  let b :=
    if truthy options.maximum_price_per_night then
      let b := b.push (times strNum options.maximum_price_per_night 100)
      b.add (" AND cost_per_night <= " ++ b.slot)
    else b
  let b :=
    if truthy options.minimum_rating then
      let b := b.push options.minimum_rating
      b.add (" AND rating >= " ++ b.slot)
    else b
  let b := b.push limit
  b.add ("\n  GROUP BY properties.id\n  ORDER BY cost_per_night\n  LIMIT " ++ b.slot ++ ";\n  ")

/-- The query issued by `getAllProperties`. -/
def getAllPropertiesQuery (strNum : String → Num) (options : Options)
    (limit : JSVal) : Query :=
  (getAllPropertiesBuild strNum options limit).toQuery

/-- Operation `getAllProperties`: no `catch` is attached. -/
def getAllProperties (strNum : String → Num) (pool : Pool) (options : Options)
    (limit : JSVal) : Promise Answer :=
  (pool (getAllPropertiesQuery strNum options limit)).andThen fun res => Answer.rows res.rows

/-! ## Properties: insertion -/

/-- The `property` argument of `addProperty`; a missing key reads as
`undefined`. -/
structure Property where
  owner_id : JSVal
  title : JSVal
  description : JSVal
  thumbnail_photo_url : JSVal
  cover_photo_url : JSVal
  cost_per_night : JSVal
  street : JSVal
  city : JSVal
  province : JSVal
  post_code : JSVal
  country : JSVal
  parking_spaces : JSVal
  number_of_bathrooms : JSVal
  number_of_bedrooms : JSVal

/-- The opening text of the insert statement: the fixed list of fourteen
columns and the opening of the `VALUES` list. -/
def insertHead : String :=
  "\n  INSERT INTO properties (\n    owner_id, \n    title, \n    description, \n    thumbnail_photo_url, \n    cover_photo_url, \n    cost_per_night, \n    street, \n    city, \n    province, \n    post_code, \n    country, \n    parking_spaces, \n    number_of_bathrooms, \n    number_of_bedrooms)\n    VALUES (\n  "

/-- The closing text of the insert statement. -/
def insertTail : String :=
  ") RETURNING *;"

/-- One block `if (v) { queryParams.push(v); queryString += $n ++ sep; }` of
`addProperty`, where `sep` is the text after the placeholder. -/
def Builder.value (b : Builder) (v : JSVal) (sep : String) : Builder :=
  if truthy v then
    let b := b.push v
    b.add (b.slot ++ sep)
  else b

/-- The assembly part of `addProperty`, block by block. -/
def addPropertyBuild (property : Property) : Builder :=
  let b : Builder := ⟨[], insertHead⟩
  let b := b.value property.owner_id ", "
  let b := b.value property.title ", "
  let b := b.value property.description ", "
  let b := b.value property.thumbnail_photo_url ", "
  let b := b.value property.cover_photo_url ", "
  let b := b.value property.cost_per_night ", "
  let b := b.value property.street ", "
  let b := b.value property.city ", "
  let b := b.value property.province ", "
  let b := b.value property.post_code ", "
  let b := b.value property.country ", "
  let b := b.value property.parking_spaces ", "
  let b := b.value property.number_of_bathrooms ", "
  let b := b.value property.number_of_bedrooms ""
  b.add insertTail

/-- The query issued by `addProperty`. -/
def addPropertyQuery (property : Property) : Query :=
  (addPropertyBuild property).toQuery

/-- Operation `addProperty`: the callback returns `res.rows` and no `catch`
is attached. -/
def addProperty (pool : Pool) (property : Property) : Promise Answer :=
  (pool (addPropertyQuery property)).andThen fun res => Answer.rows res.rows

/-! ## Reading a statement text -/

/-- Whether the characters `pat` stand at the start of `s`. -/
def startsWith : List Char → List Char → Bool
  | [], _ => true
  | _ :: _, [] => false
  | p :: ps, c :: cs => p == c && startsWith ps cs

/-- The positions of `s`, counted from `i` on, at which `pat` stands. -/
def positionsFrom (pat : List Char) : Nat → List Char → List Nat
  | i, [] => if startsWith pat [] then [i] else []
  | i, c :: cs =>
    (if startsWith pat (c :: cs) then [i] else []) ++ positionsFrom pat (i + 1) cs

/-- The positions of the statement text `s` at which `pat` occurs. -/
def positions (pat : String) (s : String) : List Nat :=
  positionsFrom pat.data 0 s.data

/-- Whether the text `s` ends with `suf`. -/
def endsWith (suf : String) (s : String) : Bool :=
  startsWith suf.data.reverse s.data.reverse

/-- The decimal digits at the start of `s`, read as a number, with the rest
of `s`; `acc` is the number read so far. -/
def readDigits (acc : Nat) : List Char → Nat × List Char
  | [] => (acc, [])
  | c :: cs => if c.isDigit then readDigits (10 * acc + (c.toNat - 48)) cs else (acc, c :: cs)

/-- The numbers of the placeholders `$n` of a statement text, in order of
appearance. -/
def placeholders : List Char → List Nat
  | [] => []
  | c :: cs => if c = '$' then (readDigits 0 cs).1 :: placeholders cs else placeholders cs

/-- The names between the first `(` and the first `)` after it, separated by
commas, with blanks and line breaks dropped: the column list of an `INSERT`. -/
def columnNames (s : List Char) : List String :=
  let inside := ((s.dropWhile fun c => c != '(').drop 1).takeWhile fun c => c != ')'
  let names := (inside.filter fun c => c != ' ' && c != '\n').splitOn ','
  names.map String.mk

/-! ## Descriptions the statements are compared with -/

/-- The filters of a search in the order the statement lists them, each as the
text that stands before its placeholder and the value bound to it; a filter
whose option is falsy is left out.  The city is bound wrapped in `%`, the two
prices are bound converted to minor units. -/
def searchFilters (strNum : String → Num) (options : Options) :
    List (String × JSVal) :=
  (if truthy options.city then
      [("WHERE city LIKE ", JSVal.str ("%" ++ toStr options.city ++ "%"))] else []) ++
  (if truthy options.owner_id then
      [(" AND owner_id = ", options.owner_id)] else []) ++
  (if truthy options.minimum_price_per_night then
      [(" AND cost_per_night >= ", times strNum options.minimum_price_per_night 100)]
    else []) ++
  (if truthy options.maximum_price_per_night then
      [(" AND cost_per_night <= ", times strNum options.maximum_price_per_night 100)]
    else []) ++
  (if truthy options.minimum_rating then
      [(" AND rating >= ", options.minimum_rating)] else [])

/-- The closing clauses of the search statement up to the placeholder of the
limit. -/
def searchClosing : String :=
  "\n  GROUP BY properties.id\n  ORDER BY cost_per_night\n  LIMIT "

/-- The texts `ts`, each followed by a placeholder; the placeholders are
numbered `n`, `n + 1`, and so on. -/
def numbered : Nat → List String → String
  | _, [] => ""
  | n, t :: ts => t ++ "$" ++ toString n ++ numbered (n + 1) ts

/-- The placeholders `$1`, ..., `$n` separated by `, `. -/
def commaSeparated (n : Nat) : String :=
  ", ".intercalate ((List.range' 1 n).map fun k => "$" ++ toString k)

/-- The thirteen fields of a property whose placeholder is followed by `, `,
in the order of the source. -/
def Property.leading (property : Property) : List JSVal :=
  [property.owner_id, property.title, property.description, property.thumbnail_photo_url,
    property.cover_photo_url, property.cost_per_night, property.street, property.city,
    property.province, property.post_code, property.country, property.parking_spaces,
    property.number_of_bathrooms]

/-- A stand-in for an option that is present (`true`) or missing. -/
def present (b : Bool) : JSVal :=
  if b then .bool true else .undefined

/-- The text of the search statement when exactly the filters marked `true`
are present. -/
def searchText (c o mn mx r : Bool) : String :=
  (getAllPropertiesBuild (fun _ => .nan)
    ⟨present c, present o, present mn, present mx, present r⟩ .undefined).queryString

/-- The blocks of `addProperty` for the values `vs` in turn, all with the
same text `sep` after the placeholder. -/
def Builder.values (b : Builder) (vs : List JSVal) (sep : String) : Builder :=
  vs.foldl (fun b v => b.value v sep) b

/-- The text `$s, $(s+1), ...` of `n` placeholders, each followed by `sep`. -/
def slots (sep : String) : Nat → Nat → String
  | _, 0 => ""
  | s, n + 1 => "$" ++ toString s ++ sep ++ slots sep (s + 1) n

/-- The `VALUES` list of `addProperty` when `m` of the thirteen leading fields
are truthy and `last` tells whether `number_of_bedrooms` is. -/
def valuesText (m : Nat) (last : Bool) : String :=
  slots ", " 1 m ++ (if last then "$" ++ toString (m + 1) else "")

/-- A complete listing with `cost_per_night` given as 50 major units. -/
def fullListing : Property :=
  ⟨.num 7, .str "Loft", .str "Bright", .str "t.png", .str "c.png", .num 50, .str "1 Main St",
    .str "Vancouver", .str "BC", .str "V5K", .str "Canada", .num 2, .num 3, .num 4⟩

/-- The listing `fullListing` without its `parking_spaces`. -/
def listingWithoutParking : Property :=
  ⟨.num 7, .str "Loft", .str "Bright", .str "t.png", .str "c.png", .num 50, .str "1 Main St",
    .str "Vancouver", .str "BC", .str "V5K", .str "Canada", .undefined, .num 3, .num 4⟩

/-- A pool whose every query fails with the message `m`. -/
def failingPool (m : String) : Pool :=
  fun _ => .rejected m

/-- A pool that answers every query with the rows `rs`. -/
def answeringPool (rs : List Row) : Pool :=
  fun _ => .resolved ⟨rs⟩

/-! ## The user lookups -/

/-- C7: `getUserWithEmail` and `getUserWithId` send a statement that compares
the column with `$1` by equality and binds the single parameter `[k]`; when
the pool answers that query, the operation resolves to the first row of the
answer if there is one and to `undefined` if the answer has no rows. -/
theorem getUser_resolves_first_row (pool : Pool) (k : JSVal) (result : QueryResult) :
    (getUserWithEmailQuery k = ⟨"SELECT * FROM users WHERE email = $1", [k]⟩ ∧
      (pool ⟨"SELECT * FROM users WHERE email = $1", [k]⟩ = .resolved result →
        getUserWithEmail pool k =
          .resolved (match result.rows.head? with | some r => .row r | none => .undefined))) ∧
    (getUserWithIdQuery k = ⟨"SELECT * FROM users WHERE id = $1", [k]⟩ ∧
      (pool ⟨"SELECT * FROM users WHERE id = $1", [k]⟩ = .resolved result →
        getUserWithId pool k =
          .resolved (match result.rows.head? with | some r => .row r | none => .undefined))) := by
  refine ⟨⟨rfl, fun h => ?_⟩, ⟨rfl, fun h => ?_⟩⟩
  · rcases result with ⟨rows⟩
    cases rows <;>
      simp [getUserWithEmail, getUserWithEmailQuery, h, Promise.andThen, Promise.orCatch,
        firstRow]
  · rcases result with ⟨rows⟩
    cases rows <;>
      simp [getUserWithId, getUserWithIdQuery, h, Promise.andThen, Promise.orCatch, firstRow]

/-- The lookups of C7 against a pool that answers with two rows: the first row
is the result. -/
theorem getUser_resolves_first_row_witness :
    getUserWithEmail (answeringPool [[("id", .num 1)], [("id", .num 2)]]) (.str "a@b.c") =
        .resolved (.row [("id", .num 1)]) ∧
      getUserWithId (answeringPool [[("id", .num 1)], [("id", .num 2)]]) (.num 1) =
        .resolved (.row [("id", .num 1)]) :=
  ⟨(getUser_resolves_first_row (answeringPool [[("id", .num 1)], [("id", .num 2)]])
      (.str "a@b.c") ⟨[[("id", .num 1)], [("id", .num 2)]]⟩).1.2 rfl,
   (getUser_resolves_first_row (answeringPool [[("id", .num 1)], [("id", .num 2)]])
      (.num 1) ⟨[[("id", .num 1)], [("id", .num 2)]]⟩).2.2 rfl⟩

/-! ## Failure of the pool -/

/-- Whatever the input and the error, the four operations with a `catch`
resolve to `undefined` when the pool fails, and the two without one reject
with the error of the pool. -/
theorem failing_pool_general (strNum : String → Num) (m : String) (k limit : JSVal)
    (user : User) (options : Options) (property : Property) :
    getUserWithEmail (failingPool m) k = .resolved .undefined ∧
    getUserWithId (failingPool m) k = .resolved .undefined ∧
    addUser (failingPool m) user = .resolved .undefined ∧
    getAllReservations (failingPool m) k limit = .resolved .undefined ∧
    getAllProperties strNum (failingPool m) options limit = .rejected m ∧
    addProperty (failingPool m) property = .rejected m :=
  ⟨rfl, rfl, rfl, rfl, rfl, rfl⟩

/-- C1: against a pool whose query fails, the four operations with a `catch`
resolve to `undefined`, while `getAllProperties` and `addProperty`, which
attach none, reject with the error of the pool. -/
theorem failing_pool_outcomes :
    getUserWithEmail (failingPool "connection refused") (.str "a@b.c") = .resolved .undefined ∧
    getUserWithId (failingPool "connection refused") (.num 1) = .resolved .undefined ∧
    addUser (failingPool "connection refused") ⟨.str "A", .str "a@b.c", .str "pw"⟩ =
      .resolved .undefined ∧
    getAllReservations (failingPool "connection refused") (.num 1) .undefined =
      .resolved .undefined ∧
    getAllProperties (fun _ => .nan) (failingPool "connection refused")
      ⟨.undefined, .undefined, .undefined, .undefined, .undefined⟩ .undefined =
      .rejected "connection refused" ∧
    addProperty (failingPool "connection refused") fullListing =
      .rejected "connection refused" :=
  ⟨rfl, rfl, rfl, rfl, rfl, rfl⟩

/-! ## The result of an insertion -/

/-- C6: when the pool answers the insert with one row, `addProperty` resolves
to the array of rows, not to the row, whereas `addUser` resolves to the row. -/
theorem addProperty_resolves_to_array :
    addProperty (answeringPool [[("id", .num 1)]]) fullListing =
        .resolved (.rows [[("id", .num 1)]]) ∧
      addProperty (answeringPool [[("id", .num 1)]]) fullListing ≠
        .resolved (.row [("id", .num 1)]) ∧
      addUser (answeringPool [[("id", .num 1)]]) ⟨.str "A", .str "a@b.c", .str "pw"⟩ =
        .resolved (.row [("id", .num 1)]) := by
  refine ⟨rfl, ?_, rfl⟩
  simp [addProperty, answeringPool, Promise.andThen]

/-! ## The insert statement -/

/-- The fourteen columns the insert statement names, in its order. -/
theorem insertHead_columns :
    columnNames insertHead.data =
      ["owner_id", "title", "description", "thumbnail_photo_url", "cover_photo_url",
        "cost_per_night", "street", "city", "province", "post_code", "country",
        "parking_spaces", "number_of_bathrooms", "number_of_bedrooms"] := by
  decide

/-- A block of `addProperty` for a truthy value. -/
theorem Builder.value_truthy (b : Builder) (v : JSVal) (sep : String)
    (h : truthy v = true) :
    b.value v sep =
      ⟨b.queryParams ++ [v],
        b.queryString ++ ("$" ++ toString (b.queryParams.length + 1) ++ sep)⟩ := by
  simp [Builder.value, h, Builder.push, Builder.add, Builder.slot]

/-- A block of `addProperty` for a falsy value changes nothing. -/
theorem Builder.value_falsy (b : Builder) (v : JSVal) (sep : String)
    (h : truthy v = false) : b.value v sep = b := by
  simp [Builder.value, h]

/-- Text appended after the placeholders of `slots`. -/
theorem slots_zero (sep : String) (s : Nat) : slots sep s 0 = "" := rfl

/-- The first placeholder of `slots`. -/
theorem slots_succ (sep : String) (s n : Nat) :
    slots sep s (n + 1) = "$" ++ toString s ++ sep ++ slots sep (s + 1) n := rfl

/-- A run of blocks binds the truthy values in order and appends one
placeholder for each, numbered on from the parameters already bound. -/
theorem Builder.values_eq (sep : String) (vs : List JSVal) (b : Builder) :
    b.values vs sep =
      ⟨b.queryParams ++ vs.filter truthy,
        b.queryString ++ slots sep (b.queryParams.length + 1) (vs.filter truthy).length⟩ := by
  induction vs generalizing b with
  | nil =>
    rcases b with ⟨ps, t⟩
    simp [Builder.values, slots_zero]
  | cons v vs ih =>
    have hstep : b.values (v :: vs) sep = (b.value v sep).values vs sep := rfl
    rw [hstep, ih]
    cases hv : truthy v
    · rw [Builder.value_falsy b v sep hv]
      simp [hv]
    · rw [Builder.value_truthy b v sep hv]
      simp [hv, slots_succ, String.append_assoc]

/-- The assembly of `addProperty` as a run of thirteen blocks, the block of
`number_of_bedrooms` and the closing text. -/
theorem addPropertyBuild_eq (property : Property) :
    addPropertyBuild property =
      (((⟨[], insertHead⟩ : Builder).values property.leading ", ").value
        property.number_of_bedrooms "").add insertTail := rfl

/-- At most thirteen leading fields are truthy. -/
theorem leading_truthy_le (property : Property) :
    (property.leading.filter truthy).length ≤ 13 :=
  (List.length_filter_le _ _).trans (by simp [Property.leading])

/-- The text and the parameters of the insert statement in terms of the
truthy leading fields. -/
theorem addPropertyQuery_eq (property : Property) :
    (addPropertyQuery property).text =
        insertHead ++
          valuesText (property.leading.filter truthy).length
            (truthy property.number_of_bedrooms) ++ insertTail ∧
      (addPropertyQuery property).params =
        property.leading.filter truthy ++
          (if truthy property.number_of_bedrooms then [property.number_of_bedrooms] else []) := by
  rw [addPropertyQuery, addPropertyBuild_eq, Builder.values_eq]
  cases hb : truthy property.number_of_bedrooms
  · rw [Builder.value_falsy _ _ _ hb]
    simp [Builder.add, Builder.toQuery, valuesText, String.append_assoc]
  · rw [Builder.value_truthy _ _ _ hb]
    simp [Builder.add, Builder.toQuery, valuesText, String.append_assoc]

/-- C3: for a property whose fourteen fields are all truthy, the `VALUES`
list of `addProperty` is exactly `$1, $2, ..., $14` and the parameters are the
fourteen field values in the order of the fourteen named columns. -/
theorem addProperty_full (property : Property)
    (h1 : truthy property.owner_id = true) (h2 : truthy property.title = true)
    (h3 : truthy property.description = true)
    (h4 : truthy property.thumbnail_photo_url = true)
    (h5 : truthy property.cover_photo_url = true)
    (h6 : truthy property.cost_per_night = true) (h7 : truthy property.street = true)
    (h8 : truthy property.city = true) (h9 : truthy property.province = true)
    (h10 : truthy property.post_code = true) (h11 : truthy property.country = true)
    (h12 : truthy property.parking_spaces = true)
    (h13 : truthy property.number_of_bathrooms = true)
    (h14 : truthy property.number_of_bedrooms = true) :
    (addPropertyQuery property).text =
        insertHead ++ "$1, $2, $3, $4, $5, $6, $7, $8, $9, $10, $11, $12, $13, $14" ++
          ") RETURNING *;" ∧
      (addPropertyQuery property).params =
        [property.owner_id, property.title, property.description,
          property.thumbnail_photo_url, property.cover_photo_url, property.cost_per_night,
          property.street, property.city, property.province, property.post_code,
          property.country, property.parking_spaces, property.number_of_bathrooms,
          property.number_of_bedrooms] ∧
      columnNames (addPropertyQuery property).text.data =
        ["owner_id", "title", "description", "thumbnail_photo_url", "cover_photo_url",
          "cost_per_night", "street", "city", "province", "post_code", "country",
          "parking_spaces", "number_of_bathrooms", "number_of_bedrooms"] := by
  have hl : property.leading.filter truthy = property.leading := by
    simp [Property.leading, h1, h2, h3, h4, h5, h6, h7, h8, h9, h10, h11, h12, h13]
  have hq := addPropertyQuery_eq property
  rw [hl, h14] at hq
  have ht : (addPropertyQuery property).text =
      insertHead ++ "$1, $2, $3, $4, $5, $6, $7, $8, $9, $10, $11, $12, $13, $14" ++
        ") RETURNING *;" := by
    rw [hq.1, show property.leading.length = 13 from rfl]
    decide
  refine ⟨ht, ?_, ?_⟩
  · rw [hq.2]
    rfl
  · rw [ht]
    decide

/-- The statement of C3 at the complete listing `fullListing`. -/
theorem addProperty_full_witness :
    (addPropertyQuery fullListing).text =
        insertHead ++ "$1, $2, $3, $4, $5, $6, $7, $8, $9, $10, $11, $12, $13, $14" ++
          ") RETURNING *;" ∧
      (addPropertyQuery fullListing).params =
        [fullListing.owner_id, fullListing.title, fullListing.description,
          fullListing.thumbnail_photo_url, fullListing.cover_photo_url,
          fullListing.cost_per_night, fullListing.street, fullListing.city,
          fullListing.province, fullListing.post_code, fullListing.country,
          fullListing.parking_spaces, fullListing.number_of_bathrooms,
          fullListing.number_of_bedrooms] ∧
      columnNames (addPropertyQuery fullListing).text.data =
        ["owner_id", "title", "description", "thumbnail_photo_url", "cover_photo_url",
          "cost_per_night", "street", "city", "province", "post_code", "country",
          "parking_spaces", "number_of_bathrooms", "number_of_bedrooms"] :=
  addProperty_full fullListing (by decide) (by decide) (by decide) (by decide) (by decide)
    (by decide) (by decide) (by decide) (by decide) (by decide) (by decide) (by decide)
    (by decide) (by decide)

/-- C2: for the listing without `parking_spaces` the statement names fourteen
columns and has thirteen placeholders, and the parameter standing at the
position of the column `parking_spaces` is the value of
`number_of_bathrooms`. -/
theorem addProperty_missing_field_shifts :
    (columnNames (addPropertyQuery listingWithoutParking).text.data).length = 14 ∧
      placeholders (addPropertyQuery listingWithoutParking).text.data =
        [1, 2, 3, 4, 5, 6, 7, 8, 9, 10, 11, 12, 13] ∧
      (columnNames (addPropertyQuery listingWithoutParking).text.data)[11]? =
        some "parking_spaces" ∧
      (addPropertyQuery listingWithoutParking).params[11]? =
        some listingWithoutParking.number_of_bathrooms ∧
      listingWithoutParking.number_of_bathrooms ≠ listingWithoutParking.parking_spaces ∧
      (addPropertyQuery listingWithoutParking).params[12]? =
        some listingWithoutParking.number_of_bedrooms := by
  decide

/-- C5: for a listing whose `cost_per_night` is 50, the parameter `addProperty`
binds at the position of the column `cost_per_night` is 50 itself, not 5000,
whereas `getAllProperties` binds a minimum price of 50 as 5000. -/
theorem addProperty_binds_price_unconverted :
    (columnNames (addPropertyQuery fullListing).text.data)[5]? = some "cost_per_night" ∧
      fullListing.cost_per_night = .num 50 ∧
      (addPropertyQuery fullListing).params[5]? = some (.num 50) ∧
      (addPropertyQuery fullListing).params[5]? ≠ some (.num (100 * 50)) ∧
      (getAllPropertiesQuery (fun _ => .nan)
        ⟨.undefined, .undefined, .num 50, .undefined, .undefined⟩ .undefined).params =
        [.num 5000, .num 10] := by
  decide

/-- The leading fields have a truthy one exactly when the run of blocks binds
a parameter. -/
theorem leading_truthy_pos (property : Property) :
    0 < (property.leading.filter truthy).length ↔ ∃ v ∈ property.leading, truthy v = true := by
  rw [← List.countP_eq_length_filter, List.countP_pos_iff]

/-- The `VALUES` list ends with `, ` exactly when the last block is skipped
and an earlier one is not. -/
theorem valuesText_endsWith :
    ∀ m, m < 14 → ∀ last : Bool,
      (endsWith ", " (valuesText m last) = true ↔ (last = false ∧ 0 < m)) := by
  decide

/-- Unless it ends with `, `, the `VALUES` list is a comma-separated list of
placeholders. -/
theorem valuesText_commaSeparated :
    ∀ m, m < 14 → ∀ last : Bool,
      (last = false ∧ 0 < m) ∨ valuesText m last = commaSeparated (m + last.toNat) := by
  decide

/-- C10: the `VALUES` list built by `addProperty`, the text between the
opening of the statement and `) RETURNING *;`, ends with a dangling `, `
if and only if `number_of_bedrooms` is falsy and one of the other thirteen
fields is truthy; in every other case it is the list of the placeholders
`$1`, ..., `$n` of the `n` parameters separated by `, `, with no trailing
separator. -/
theorem addProperty_dangling_separator (property : Property) :
    ∃ vals : String,
      (addPropertyQuery property).text = insertHead ++ vals ++ ") RETURNING *;" ∧
      (endsWith ", " vals = true ↔
        (truthy property.number_of_bedrooms = false ∧
          ∃ v ∈ property.leading, truthy v = true)) ∧
      ((truthy property.number_of_bedrooms = false ∧
          ∃ v ∈ property.leading, truthy v = true) ∨
        vals = commaSeparated (addPropertyQuery property).params.length) := by
  obtain ⟨ht, hp⟩ := addPropertyQuery_eq property
  have hm : (property.leading.filter truthy).length < 14 :=
    Nat.lt_succ_of_le (leading_truthy_le property)
  have hlen : (addPropertyQuery property).params.length =
      (property.leading.filter truthy).length + (truthy property.number_of_bedrooms).toNat := by
    rw [hp]
    cases truthy property.number_of_bedrooms <;> simp
  refine ⟨valuesText (property.leading.filter truthy).length
    (truthy property.number_of_bedrooms), ht, ?_, ?_⟩
  · rw [valuesText_endsWith _ hm, leading_truthy_pos]
  · rw [hlen, ← leading_truthy_pos]
    exact valuesText_commaSeparated _ hm _

/-! ## Arithmetic in double precision -/

/-- No more binary digits are dropped than leave a significand below `2 ^ 53`. -/
theorem excessBits_le : ∀ (fuel n e : Nat), n / 2 ^ e < 2 ^ 53 → excessBits fuel n ≤ e := by
  intro fuel
  induction fuel with
  | zero => intro n e _; simp [excessBits]
  | succ fuel ih =>
    intro n e h
    unfold excessBits
    split
    · exact Nat.zero_le _
    · rename_i hn
      cases e with
      | zero => simp at h; omega
      | succ e =>
        have := ih (n / 2) e (by rwa [Nat.div_div_eq_div_mul, ← pow_succ'])
        omega

/-- With the magnitude itself as fuel, the digits dropped leave a significand
below `2 ^ 53`. -/
theorem excessBits_fuel : ∀ (fuel n : Nat), n < 2 ^ 53 * 2 ^ fuel →
    n / 2 ^ excessBits fuel n < 2 ^ 53 := by
  intro fuel
  induction fuel with
  | zero => intro n h; simpa [excessBits] using h
  | succ fuel ih =>
    intro n h
    unfold excessBits
    split
    · simpa
    · have h2 : n / 2 < 2 ^ 53 * 2 ^ fuel := by
        rw [pow_succ] at h
        omega
      have := ih (n / 2) h2
      rwa [Nat.div_div_eq_div_mul, ← pow_succ'] at this

/-- Rounding leaves a significand below `2 ^ 53` times a power of two as it
is. -/
theorem roundMagnitude_exact (m e : Nat) (hm : m < 2 ^ 53) :
    roundMagnitude (m * 2 ^ e) = m * 2 ^ e := by
  have hle : excessBits (m * 2 ^ e) (m * 2 ^ e) ≤ e :=
    excessBits_le _ _ _ (by rw [Nat.mul_div_cancel _ (Nat.two_pow_pos e)]; exact hm)
  have hdvd : 2 ^ excessBits (m * 2 ^ e) (m * 2 ^ e) ∣ m * 2 ^ e :=
    Dvd.dvd.mul_left (pow_dvd_pow 2 hle) m
  have hr : m * 2 ^ e % 2 ^ excessBits (m * 2 ^ e) (m * 2 ^ e) = 0 := Nat.mod_eq_zero_of_dvd hdvd
  have hpos : 0 < 2 ^ excessBits (m * 2 ^ e) (m * 2 ^ e) := Nat.two_pow_pos _
  simp only [roundMagnitude, hr]
  rw [if_neg (by omega)]
  exact Nat.div_mul_cancel hdvd

/-- Rounding leaves a double as it is. -/
theorem roundDouble_exact (n : Int) (h : ExactDouble n) : roundDouble n = .int n := by
  obtain ⟨m, e, hm, hn, hlim⟩ := h
  have hrm : roundMagnitude n.natAbs = n.natAbs := by
    rw [hn]; exact roundMagnitude_exact m e hm
  simp only [roundDouble, hrm]
  rw [if_neg (by omega)]
  congr 1
  split <;> omega

/-- The product of an integer and 100 is exact when it is a double. -/
theorem times_exact (strNum : String → Num) (a : Int) (h : ExactDouble (100 * a)) :
    times strNum (.num a) 100 = .num (100 * a) := by
  simp only [times, toNumber]
  rw [mul_comm a 100, roundDouble_exact _ h]
  rfl

/-- Every integer of magnitude at most `2 ^ 53` is a double. -/
theorem exactDouble_of_le (n : Int) (h : n.natAbs ≤ 2 ^ 53) : ExactDouble n := by
  rcases Nat.lt_or_ge n.natAbs (2 ^ 53) with hlt | hge
  · refine ⟨n.natAbs, 0, hlt, by simp, lt_trans hlt (by decide)⟩
  · have : n.natAbs = 2 ^ 53 := le_antisymm h hge
    refine ⟨2 ^ 52, 1, by decide, by rw [this]; decide, by rw [this]; decide⟩

/-- The significand kept by `roundMagnitude` before rounding is below
`2 ^ 53`: the fuel of `excessBits` is enough. -/
theorem excessBits_enough (n : Nat) : n / 2 ^ excessBits n n < 2 ^ 53 :=
  excessBits_fuel n n
    (lt_of_lt_of_le (Nat.lt_two_pow n) (Nat.le_mul_of_pos_left _ (Nat.two_pow_pos 53)))

/-- The number 10 ^ 21 prints in exponent form, and a city given as that
number is bound as `%1e+21%`. -/
theorem search_city_exponent_form :
    toStr (.num (10 ^ 21)) = "1e+21" ∧ toStr (.num (2 ^ 69)) = "590295810358705700000" ∧
      toStr (.num (-42)) = "-42" ∧
      (getAllPropertiesQuery (fun _ => .nan)
        ⟨.num (10 ^ 21), .undefined, .undefined, .undefined, .undefined⟩ .undefined).params =
        [.str "%1e+21%", .num 10] := by
  decide

/-! ## The search statement -/

/-- The text of the search statement depends on the options only through
which of them are truthy. -/
theorem searchText_eq (strNum : String → Num) (options : Options) (limit : JSVal) :
    (getAllPropertiesQuery strNum options limit).text =
      searchText (truthy options.city) (truthy options.owner_id)
        (truthy options.minimum_price_per_night) (truthy options.maximum_price_per_night)
        (truthy options.minimum_rating) := by
  rcases options with ⟨c, o, mn, mx, r⟩
  simp only [getAllPropertiesQuery, Builder.toQuery, searchText, getAllPropertiesBuild]
  cases truthy c <;> cases truthy o <;> cases truthy mn <;> cases truthy mx <;>
    cases truthy r <;> rfl

/-- The parameters of the search statement are the values of the filters that
are present followed by the limit. -/
theorem searchParams_eq (strNum : String → Num) (options : Options) (limit : JSVal) :
    (getAllPropertiesQuery strNum options limit).params =
      (searchFilters strNum options).map Prod.snd ++ [limitOrDefault limit] := by
  rcases options with ⟨c, o, mn, mx, r⟩
  simp only [getAllPropertiesQuery, Builder.toQuery, searchFilters, getAllPropertiesBuild]
  cases truthy c <;> cases truthy o <;> cases truthy mn <;> cases truthy mx <;>
    cases truthy r <;> rfl

/-- The number of filters that are present. -/
theorem searchFilters_length (strNum : String → Num) (options : Options) :
    (searchFilters strNum options).length =
      (truthy options.city).toNat + (truthy options.owner_id).toNat +
        (truthy options.minimum_price_per_night).toNat +
        (truthy options.maximum_price_per_night).toNat +
        (truthy options.minimum_rating).toNat := by
  rcases options with ⟨c, o, mn, mx, r⟩
  simp only [searchFilters]
  cases truthy c <;> cases truthy o <;> cases truthy mn <;> cases truthy mx <;>
    cases truthy r <;> rfl

/-- The texts before the placeholders of the filters depend on the options
only through which of them are truthy. -/
theorem searchFilters_texts (strNum : String → Num) (options : Options) :
    (searchFilters strNum options).map Prod.fst =
      (searchFilters (fun _ => .nan)
        ⟨present (truthy options.city), present (truthy options.owner_id),
          present (truthy options.minimum_price_per_night),
          present (truthy options.maximum_price_per_night),
          present (truthy options.minimum_rating)⟩).map Prod.fst := by
  rcases options with ⟨c, o, mn, mx, r⟩
  simp only [searchFilters]
  cases truthy c <;> cases truthy o <;> cases truthy mn <;> cases truthy mx <;>
    cases truthy r <;> rfl

/-- The search statement is its opening, the texts of the present filters and
the closing clauses, each followed by the next placeholder. -/
theorem searchText_numbered :
    ∀ c o mn mx r : Bool,
      searchText c o mn mx r =
        searchHead ++
          numbered 1 ((searchFilters (fun _ => .nan)
            ⟨present c, present o, present mn, present mx, present r⟩).map Prod.fst ++
              [searchClosing]) ++ ";\n  " := by
  decide

/-- The placeholders of the search statement are numbered from 1 on. -/
theorem searchText_placeholders :
    ∀ c o mn mx r : Bool,
      placeholders (searchText c o mn mx r).data =
        List.range' 1 (c.toNat + o.toNat + mn.toNat + mx.toNat + r.toNat + 1) := by
  decide

/-- C9: the statement and the parameter list built by `getAllProperties`
agree.  The parameters are the values of the filters that are present, in
the order of the statement, followed by the limit, which is 10 when none is
passed; the text is the opening followed by the text of each such filter and
then the closing `LIMIT`, each with the placeholder of its own position; and
the placeholders read off the text are exactly `$1`, ..., `$n` with `n` the
number of parameters.  The values are those of the filters themselves: a city
given as the string `s` is bound as `%s%`, the first parameter; a price given
as an integer whose hundredfold is a double is bound as that hundredfold, at
the position of its own predicate; the owner and the rating are bound as
they are. -/
theorem getAllProperties_placeholders_agree (strNum : String → Num)
    (options : Options) (limit : JSVal) :
    (getAllPropertiesQuery strNum options limit).params =
        (searchFilters strNum options).map Prod.snd ++
          [if limit = .undefined then .num 10 else limit] ∧
      (getAllPropertiesQuery strNum options limit).text =
        searchHead ++
          numbered 1 ((searchFilters strNum options).map Prod.fst ++
            ["\n  GROUP BY properties.id\n  ORDER BY cost_per_night\n  LIMIT "]) ++ ";\n  " ∧
      placeholders (getAllPropertiesQuery strNum options limit).text.data =
        List.range' 1 (getAllPropertiesQuery strNum options limit).params.length ∧
      (∀ s : String, options.city = .str s → s ≠ "" →
        (getAllPropertiesQuery strNum options limit).params[0]? =
          some (.str ("%" ++ s ++ "%"))) ∧
      (truthy options.owner_id = true →
        (getAllPropertiesQuery strNum options limit).params[(truthy options.city).toNat]? =
          some options.owner_id) ∧
      (∀ a : Int, options.minimum_price_per_night = .num a → a ≠ 0 → ExactDouble (100 * a) →
        (getAllPropertiesQuery strNum options limit).params[(truthy options.city).toNat +
            (truthy options.owner_id).toNat]? = some (.num (100 * a))) ∧
      (∀ b : Int, options.maximum_price_per_night = .num b → b ≠ 0 → ExactDouble (100 * b) →
        (getAllPropertiesQuery strNum options limit).params[(truthy options.city).toNat +
            (truthy options.owner_id).toNat +
            (truthy options.minimum_price_per_night).toNat]? = some (.num (100 * b))) ∧
      (truthy options.minimum_rating = true →
        (getAllPropertiesQuery strNum options limit).params[(truthy options.city).toNat +
            (truthy options.owner_id).toNat +
            (truthy options.minimum_price_per_night).toNat +
            (truthy options.maximum_price_per_night).toNat]? = some options.minimum_rating) := by
  refine ⟨searchParams_eq strNum options limit, ?_, ?_, ?_, ?_, ?_, ?_, ?_⟩
  · rw [searchText_eq, searchFilters_texts, searchText_numbered]
    rfl
  · rw [searchText_eq, searchParams_eq, searchText_placeholders]
    simp [searchFilters_length]
  · intro s hs hne
    rcases options with ⟨c, o, mn, mx, r⟩
    simp only at hs
    subst hs
    have ht : truthy (.str s) = true := by simp [truthy, hne]
    rw [searchParams_eq]
    simp [searchFilters, ht, toStr]
  · intro ho
    rcases options with ⟨c, o, mn, mx, r⟩
    simp only at ho
    rw [searchParams_eq]
    simp only [searchFilters, ho]
    cases truthy c <;> simp
  · intro a hmin ha hea
    rcases options with ⟨c, o, mn, mx, r⟩
    simp only at hmin
    subst hmin
    have hta : truthy (.num a) = true := by simp [truthy, ha]
    rw [searchParams_eq]
    simp only [searchFilters, hta, times_exact strNum a hea]
    cases truthy c <;> cases truthy o <;> simp
  · intro b hmax hb heb
    rcases options with ⟨c, o, mn, mx, r⟩
    simp only at hmax
    subst hmax
    have htb : truthy (.num b) = true := by simp [truthy, hb]
    rw [searchParams_eq]
    simp only [searchFilters, htb, times_exact strNum b heb]
    cases truthy c <;> cases truthy o <;> cases truthy mn <;> simp
  · intro hr
    rcases options with ⟨c, o, mn, mx, r⟩
    simp only at hr
    rw [searchParams_eq]
    simp only [searchFilters, hr]
    cases truthy c <;> cases truthy o <;> cases truthy mn <;> cases truthy mx <;> simp

/-- The statement of C9 for a search with all five filters: the city
`Vancouver` is bound as `%Vancouver%`, the owner 7 as 7, the prices 50 and 150
as 5000 and 15000 and the rating 4 as 4, each at the position of its own
placeholder. -/
theorem getAllProperties_placeholders_agree_witness :
    (getAllPropertiesQuery (fun _ => .nan)
        ⟨.str "Vancouver", .num 7, .num 50, .num 150, .num 4⟩ .undefined).params[0]? =
        some (.str "%Vancouver%") ∧
      (getAllPropertiesQuery (fun _ => .nan)
        ⟨.str "Vancouver", .num 7, .num 50, .num 150, .num 4⟩ .undefined).params[1]? =
        some (.num 7) ∧
      (getAllPropertiesQuery (fun _ => .nan)
        ⟨.str "Vancouver", .num 7, .num 50, .num 150, .num 4⟩ .undefined).params[2]? =
        some (.num 5000) ∧
      (getAllPropertiesQuery (fun _ => .nan)
        ⟨.str "Vancouver", .num 7, .num 50, .num 150, .num 4⟩ .undefined).params[3]? =
        some (.num 15000) ∧
      (getAllPropertiesQuery (fun _ => .nan)
        ⟨.str "Vancouver", .num 7, .num 50, .num 150, .num 4⟩ .undefined).params[4]? =
        some (.num 4) :=
  ⟨(getAllProperties_placeholders_agree (fun _ => .nan)
      ⟨.str "Vancouver", .num 7, .num 50, .num 150, .num 4⟩ .undefined).2.2.2.1
      "Vancouver" rfl (by decide),
    (getAllProperties_placeholders_agree (fun _ => .nan)
      ⟨.str "Vancouver", .num 7, .num 50, .num 150, .num 4⟩ .undefined).2.2.2.2.1 (by decide),
    (getAllProperties_placeholders_agree (fun _ => .nan)
      ⟨.str "Vancouver", .num 7, .num 50, .num 150, .num 4⟩ .undefined).2.2.2.2.2.1
      50 rfl (by decide) ⟨5000, 0, by decide, by decide, by decide⟩,
    (getAllProperties_placeholders_agree (fun _ => .nan)
      ⟨.str "Vancouver", .num 7, .num 50, .num 150, .num 4⟩ .undefined).2.2.2.2.2.2.1
      150 rfl (by decide) ⟨15000, 0, by decide, by decide, by decide⟩,
    (getAllProperties_placeholders_agree (fun _ => .nan)
      ⟨.str "Vancouver", .num 7, .num 50, .num 150, .num 4⟩ .undefined).2.2.2.2.2.2.2
      (by decide)⟩

/-- With both price filters present, their two predicates stand side by side
between the earlier filters and the rating filter. -/
theorem searchText_prices :
    ∀ c o r : Bool,
      searchText c o true true r =
        searchHead ++ (if c then "WHERE city LIKE $1" else "") ++
          (if o then " AND owner_id = $" ++ toString (c.toNat + 1) else "") ++
          " AND cost_per_night >= $" ++ toString (c.toNat + o.toNat + 1) ++
          " AND cost_per_night <= $" ++ toString (c.toNat + o.toNat + 1 + 1) ++
          (if r then " AND rating >= $" ++ toString (c.toNat + o.toNat + 3) else "") ++
          "\n  GROUP BY properties.id\n  ORDER BY cost_per_night\n  LIMIT $" ++
          toString (c.toNat + o.toNat + 1 + 1 + r.toNat + 1) ++ ";\n  " := by
  decide

/-- C4, as stated, fails at the minimum price 360287970189641: its
hundredfold 36028797018964100 is not a double and the parameter bound for
`cost_per_night >= $1` is the double 36028797018964096, so that no parameter
is the hundredfold. -/
theorem getAllProperties_price_rounded :
    (getAllPropertiesQuery (fun _ => .nan)
        ⟨.undefined, .undefined, .num 360287970189641, .num 150, .undefined⟩
        .undefined).text =
        searchHead ++ " AND cost_per_night >= $1 AND cost_per_night <= $2" ++
          "\n  GROUP BY properties.id\n  ORDER BY cost_per_night\n  LIMIT $3;\n  " ∧
      (getAllPropertiesQuery (fun _ => .nan)
        ⟨.undefined, .undefined, .num 360287970189641, .num 150, .undefined⟩
        .undefined).params = [.num 36028797018964096, .num 15000, .num 10] ∧
      JSVal.num (100 * 360287970189641) ∉
        (getAllPropertiesQuery (fun _ => .nan)
          ⟨.undefined, .undefined, .num 360287970189641, .num 150, .undefined⟩
          .undefined).params := by
  decide

/-- C4, amended: when `minimum_price_per_night` is a non-zero integer `a` and
`maximum_price_per_night` a non-zero integer `b` whose hundredfolds `100 * a`
and `100 * b` are doubles, the statement of `getAllProperties` contains the
predicates `cost_per_night >= $i` and `cost_per_night <= $j`, the `i`-th
parameter is `100 * a` and the `j`-th is `100 * b`, and the statement ends
with `ORDER BY cost_per_night` (the ascending order of SQL) and the `LIMIT`
placeholder. -/
theorem getAllProperties_price_bounds (strNum : String → Num) (options : Options)
    (limit : JSVal) (a b : Int)
    (hmin : options.minimum_price_per_night = .num a)
    (hmax : options.maximum_price_per_night = .num b) (ha : a ≠ 0) (hb : b ≠ 0)
    (hea : ExactDouble (100 * a)) (heb : ExactDouble (100 * b)) :
    ∃ (i j : Nat) (pre post : String),
      (getAllPropertiesQuery strNum options limit).text =
        pre ++ " AND cost_per_night >= $" ++ toString i ++
          " AND cost_per_night <= $" ++ toString j ++ post ++
          "\n  GROUP BY properties.id\n  ORDER BY cost_per_night\n  LIMIT $" ++
          toString (getAllPropertiesQuery strNum options limit).params.length ++ ";\n  " ∧
      1 ≤ i ∧ 1 ≤ j ∧
      (getAllPropertiesQuery strNum options limit).params[i - 1]? = some (.num (100 * a)) ∧
      (getAllPropertiesQuery strNum options limit).params[j - 1]? = some (.num (100 * b)) := by
  rcases options with ⟨c, o, mn, mx, r⟩
  simp only at hmin hmax
  subst hmin hmax
  have hta : truthy (.num a) = true := by simp [truthy, ha]
  have htb : truthy (.num b) = true := by simp [truthy, hb]
  have hlen := searchFilters_length strNum ⟨c, o, .num a, .num b, r⟩
  simp only [hta, htb] at hlen
  refine ⟨(truthy c).toNat + (truthy o).toNat + 1, (truthy c).toNat + (truthy o).toNat + 1 + 1,
    searchHead ++ (if truthy c then "WHERE city LIKE $1" else "") ++
      (if truthy o then " AND owner_id = $" ++ toString ((truthy c).toNat + 1) else ""),
    (if truthy r then " AND rating >= $" ++
      toString ((truthy c).toNat + (truthy o).toNat + 3) else ""), ?_, ?_, ?_, ?_, ?_⟩
  · rw [searchText_eq, searchParams_eq]
    simp only [hta, htb, List.length_append, List.length_map, hlen, List.length_singleton]
    rw [searchText_prices]
    simp only [Bool.toNat_true]
  · omega
  · omega
  · rw [searchParams_eq]
    simp only [searchFilters, hta, htb, times_exact strNum a hea, times_exact strNum b heb]
    cases truthy c <;> cases truthy o <;> cases truthy r <;> simp
  · rw [searchParams_eq]
    simp only [searchFilters, hta, htb, times_exact strNum a hea, times_exact strNum b heb]
    cases truthy c <;> cases truthy o <;> cases truthy r <;> simp

/-- The statement of C4 for a search between 50 and 150: the parameters
bound are 5000 and 15000. -/
theorem getAllProperties_price_bounds_witness :
    ∃ (i j : Nat) (pre post : String),
      (getAllPropertiesQuery (fun _ => .nan)
          ⟨.undefined, .undefined, .num 50, .num 150, .undefined⟩ .undefined).text =
        pre ++ " AND cost_per_night >= $" ++ toString i ++
          " AND cost_per_night <= $" ++ toString j ++ post ++
          "\n  GROUP BY properties.id\n  ORDER BY cost_per_night\n  LIMIT $" ++
          toString (getAllPropertiesQuery (fun _ => .nan)
            ⟨.undefined, .undefined, .num 50, .num 150, .undefined⟩
            .undefined).params.length ++ ";\n  " ∧
      1 ≤ i ∧ 1 ≤ j ∧
      (getAllPropertiesQuery (fun _ => .nan)
          ⟨.undefined, .undefined, .num 50, .num 150, .undefined⟩ .undefined).params[i - 1]? =
        some (.num (100 * 50)) ∧
      (getAllPropertiesQuery (fun _ => .nan)
          ⟨.undefined, .undefined, .num 50, .num 150, .undefined⟩ .undefined).params[j - 1]? =
        some (.num (100 * 150)) :=
  getAllProperties_price_bounds (fun _ => .nan)
    ⟨.undefined, .undefined, .num 50, .num 150, .undefined⟩ .undefined 50 150 rfl rfl
    (by decide) (by decide) ⟨5000, 0, by decide, by decide, by decide⟩
    ⟨15000, 0, by decide, by decide, by decide⟩

/-- Without a city filter and with another filter the statement has an
` AND ` and no `WHERE`. -/
theorem searchText_without_city :
    ∀ o mn mx r : Bool, (o || mn || mx || r) = true →
      positions " AND " (searchText false o mn mx r) ≠ [] ∧
        positions "WHERE" (searchText false o mn mx r) = [] := by
  decide

/-- With a city filter the statement has one `WHERE`, right after the
opening text and before every ` AND `. -/
theorem searchText_with_city :
    ∀ o mn mx r : Bool,
      positions "WHERE" (searchText true o mn mx r) = [searchHead.length] ∧
        ∀ j ∈ positions " AND " (searchText true o mn mx r), searchHead.length < j := by
  decide

/-- C8: when the city is falsy and one of `owner_id`,
`minimum_price_per_night`, `maximum_price_per_night`, `minimum_rating` is
truthy, the statement of `getAllProperties` contains ` AND ` and no `WHERE`;
when the city is truthy, it contains exactly one `WHERE`, which stands before
every ` AND `. -/
theorem getAllProperties_where_and (strNum : String → Num) (options : Options)
    (limit : JSVal) :
    (truthy options.city = false →
      (truthy options.owner_id = true ∨ truthy options.minimum_price_per_night = true ∨
        truthy options.maximum_price_per_night = true ∨
        truthy options.minimum_rating = true) →
      positions " AND " (getAllPropertiesQuery strNum options limit).text ≠ [] ∧
        positions "WHERE" (getAllPropertiesQuery strNum options limit).text = []) ∧
    (truthy options.city = true →
      ∃ w, positions "WHERE" (getAllPropertiesQuery strNum options limit).text = [w] ∧
        ∀ j ∈ positions " AND " (getAllPropertiesQuery strNum options limit).text, w < j) := by
  rw [searchText_eq]
  constructor
  · intro hc hsome
    rw [hc]
    apply searchText_without_city
    simpa [Bool.or_eq_true, or_assoc] using hsome
  · intro hc
    rw [hc]
    exact ⟨searchHead.length, searchText_with_city _ _ _ _⟩

/-- The statement of C8 for a search by owner alone and for a search by city
and owner. -/
theorem getAllProperties_where_and_witness :
    (positions " AND " (getAllPropertiesQuery (fun _ => .nan)
          ⟨.undefined, .num 7, .undefined, .undefined, .undefined⟩ .undefined).text ≠ [] ∧
        positions "WHERE" (getAllPropertiesQuery (fun _ => .nan)
          ⟨.undefined, .num 7, .undefined, .undefined, .undefined⟩ .undefined).text = []) ∧
      ∃ w, positions "WHERE" (getAllPropertiesQuery (fun _ => .nan)
          ⟨.str "Vancouver", .num 7, .undefined, .undefined, .undefined⟩ .undefined).text = [w] ∧
        ∀ j ∈ positions " AND " (getAllPropertiesQuery (fun _ => .nan)
          ⟨.str "Vancouver", .num 7, .undefined, .undefined, .undefined⟩ .undefined).text,
          w < j :=
  ⟨(getAllProperties_where_and (fun _ => .nan)
      ⟨.undefined, .num 7, .undefined, .undefined, .undefined⟩ .undefined).1 rfl
      (Or.inl (by decide)),
    (getAllProperties_where_and (fun _ => .nan)
      ⟨.str "Vancouver", .num 7, .undefined, .undefined, .undefined⟩ .undefined).2
      (by decide)⟩

end LightBnB
